import Mathlib

/-
Verification of the risk-gated, idempotent funds-transfer engine whose
behavioural contract is specified by the repository's test harnesses
(integration-tests.py, validation-script.py, performance-test.py) and spec.
The repository contains no implementation of the engine itself; the
definitions below are therefore modelled from the specification, with
monetary values represented as integer cents (fixed-point, two fractional
digits), so 2.50 is 250, 1,000,000.00 is 100000000, and so on.
-/

namespace FundsTransfer

/-- Modelled from the spec: the transaction-type enum {Domestic(DM),
Wire(WT), International(IT)} selecting the fee schedule (spec section 3);
the engine implementation is absent from the repository. -/
inductive TxType where
  | DM
  | WT
  | IT
deriving DecidableEq

/-- Modelled from the spec: terminal transaction states
{Completed, Blocked, Rejected} (spec section 3); the engine implementation
is absent from the repository. -/
inductive TxStatus where
  | Completed
  | Blocked
  | Rejected
deriving DecidableEq

/-- Modelled from the spec: the account record of the Ledger Store (spec
section 3), keeping the fields that the transfer rules read or write.
Balances and limits are integer cents. Informational fields (customerId,
currency of the account, timestamps, the resting risk score) do not enter
any rule and are omitted. -/
structure Account where
  accountNumber : String
  balance : Int
  dailyLimit : Int
  dailyUsed : Int
  isVip : Bool
  overdraftLimit : Int
  transactionCount : Nat
deriving DecidableEq

/-- Modelled from the spec: an inbound transfer request (spec section 6),
with the amount in integer cents and an optional transaction type (a
request omitting the type defaults to the Domestic fee schedule). -/
structure TransferRequest where
  fromAccount : String
  toAccount : String
  amount : Int
  currency : String
  transactionType : Option TxType
  idempotencyKey : Option String
deriving DecidableEq

/-- Modelled from the spec: the Risk Gate call's explicit result type
`Scored(n) | Unavailable` (spec section 9, design notes); `Unavailable`
covers both a deadline expiry and an unreachable dependency. -/
inductive RiskResult where
  | Scored (score : Nat)
  | Unavailable
deriving DecidableEq

/-- Modelled from the spec: the fee schedule (spec section 4.1) — zero for
a VIP debited account, otherwise Domestic 2.50, International 25.00,
Wire 35.00, defaulting to the Domestic schedule when the type is omitted.
Values in cents. -/
def feeFor (isVip : Bool) (t : Option TxType) : Int :=
  if isVip then 0
  else
    match t with
    | some TxType.DM => 250
    | some TxType.IT => 2500
    | some TxType.WT => 3500
    | none => 250

/-- Modelled from the spec: an account number is valid when it is exactly
10 digits (spec section 4.1). -/
def validAccountNumber (s : String) : Bool :=
  s.data.length = 10 && s.data.all Char.isDigit

/-- Modelled from the spec: request validation (spec section 4.1) — both
account numbers well-formed, no self-transfer, amount within
[0.01, 1,000,000.00] (in cents: [1, 100000000]); a non-positive amount is
outside that range. -/
def validRequest (r : TransferRequest) : Bool :=
  validAccountNumber r.fromAccount && validAccountNumber r.toAccount &&
  !(decide (r.fromAccount = r.toAccount)) &&
  decide (1 ≤ r.amount) && decide (r.amount ≤ 100000000)

/-- Modelled from the spec: the orchestrator blocks exactly when the gate
returned a score strictly greater than 60; the `Unavailable` outcome is
fail-open and never blocks (spec section 4.3). -/
def riskBlocks : RiskResult → Bool
  | RiskResult.Scored n => decide (60 < n)
  | RiskResult.Unavailable => false

/-- Modelled from the spec: the Ledger Store's atomic apply (spec section
4.4) — debit amount+fee from one account, credit amount to the other, and
update `dailyUsed` and `transactionCount` bookkeeping, as one indivisible
unit returning the post-mutation snapshots. -/
def applyLedger (fa ta : Account) (amount fee : Int) : Account × Account :=
  ({ fa with
      balance := fa.balance - amount - fee
      dailyUsed := fa.dailyUsed + amount
      transactionCount := fa.transactionCount + 1 },
   { ta with
      balance := ta.balance + amount
      transactionCount := ta.transactionCount + 1 })

/-- Modelled from the spec: the outcome of one orchestration — terminal
status, HTTP mapping, user-visible message, and the post-state snapshots
of the two accounts (equal to the pre-state on every non-Completed path). -/
structure TransferOutcome where
  status : TxStatus
  httpStatus : Nat
  message : String
  fromAfter : Account
  toAfter : Account
deriving DecidableEq

/-- Modelled from the spec: the Transfer Orchestrator state machine for a
single request (spec section 4.5), given the Risk Gate's result and the
two account snapshots read inside the critical section: validation
failures map to 422; a risk score above 60 maps to Blocked/403 with a
"fraud" message; the daily-limit and funds checks (spec section 4.1,
evaluated under the account's mutation right) map to 400; otherwise the
atomic ledger apply runs and the transfer completes with 200. -/
def processTransfer (risk : RiskResult) (fa ta : Account) (req : TransferRequest) :
    TransferOutcome :=
  if validRequest req then
    if riskBlocks risk then
      ⟨TxStatus.Blocked, 403, "transaction blocked by fraud detection", fa, ta⟩
    else if fa.dailyLimit < fa.dailyUsed + req.amount then
      ⟨TxStatus.Rejected, 400, "daily limit exceeded for account", fa, ta⟩
    else if fa.balance + fa.overdraftLimit <
        req.amount + feeFor fa.isVip req.transactionType then
      ⟨TxStatus.Rejected, 400, "insufficient funds including fee", fa, ta⟩
    else
      ⟨TxStatus.Completed, 200, "transaction completed",
        (applyLedger fa ta req.amount (feeFor fa.isVip req.transactionType)).1,
        (applyLedger fa ta req.amount (feeFor fa.isVip req.transactionType)).2⟩
  else
    ⟨TxStatus.Rejected, 422, "validation error: malformed transfer request", fa, ta⟩

/-- Bool test that `needle` occurs as a prefix of `hay` (over char lists). -/
def prefOf : List Char → List Char → Bool
  | [], _ => true
  | _ :: _, [] => false
  | a :: as, b :: bs => decide (a = b) && prefOf as bs

/-- Bool test that `needle` occurs contiguously somewhere inside `hay`. -/
def subOccurs (needle : List Char) : List Char → Bool
  | [] => decide (needle = [])
  | c :: rest => prefOf needle (c :: rest) || subOccurs needle rest

/-- A message contains a given fragment (substring test on the
underlying character lists). -/
def msgHas (needle msg : String) : Bool :=
  subOccurs needle.data msg.data

/-- Modelled from the spec: serialization of a batch of transfer requests
against one debited/credited account pair. The spec's ordering guarantee
(section 5) makes all applied mutations of an account totally ordered, so
a set of concurrent requests is observationally equivalent to processing
them one after another in commit order; `runSeq` threads the two account
snapshots through the requests and counts the ones that completed. -/
def runSeq (risk : RiskResult) : List TransferRequest → Account → Account →
    Account × Account × Nat
  | [], fa, ta => (fa, ta, 0)
  | req :: rest, fa, ta =>
    let out := processTransfer risk fa ta req
    let r := runSeq risk rest out.fromAfter out.toAfter
    (r.1, r.2.1, if out.status = TxStatus.Completed then r.2.2 + 1 else r.2.2)

/-- Modelled from the spec: the idempotency cache entry — the stored
`(transactionId, terminal result)` pair returned verbatim on a repeated
submission (spec section 4.2). -/
structure StoredResult where
  transactionId : Nat
  status : TxStatus
  httpStatus : Nat
  message : String
deriving DecidableEq

/-- Look up a stored result by idempotency key in an association list. -/
def findStored : List (String × StoredResult) → String → Option StoredResult
  | [], _ => none
  | (k, v) :: rest, key => if k = key then some v else findStored rest key

/-- Look up an account by number in the ledger store. -/
def getAcc : List (String × Account) → String → Option Account
  | [], _ => none
  | (k, v) :: rest, key => if k = key then some v else getAcc rest key

/-- Replace the account stored under a number (first occurrence). -/
def setAcc : List (String × Account) → String → Account → List (String × Account)
  | [], _, _ => []
  | (k, v) :: rest, key, a =>
    if k = key then (k, a) :: rest else (k, v) :: setAcc rest key a

/-- Modelled from the spec: the engine's observable state — the ledger
store, the idempotency cache, the next transaction id to assign, and a
count of risk-gate invocations (used to state that a deduplicated
submission performs no second risk-gate call). -/
structure Sys where
  accounts : List (String × Account)
  cache : List (String × StoredResult)
  nextId : Nat
  riskCalls : Nat
deriving DecidableEq

/-- Modelled from the spec: a fresh (non-deduplicated) orchestration run —
read the two account snapshots, run the orchestrator, assign a new
transaction id, and write the post-state snapshots back; the risk gate is
consulted only once validation has passed (spec section 4.5). A request
naming an unknown account is rejected as a validation failure without any
mutation. -/
def runNew (risk : RiskResult) (sys : Sys) (req : TransferRequest) :
    StoredResult × Sys :=
  match getAcc sys.accounts req.fromAccount, getAcc sys.accounts req.toAccount with
  | some fa, some ta =>
    let out := processTransfer risk fa ta req
    (⟨sys.nextId, out.status, out.httpStatus, out.message⟩,
     { accounts := setAcc (setAcc sys.accounts req.fromAccount out.fromAfter)
                     req.toAccount out.toAfter
       cache := sys.cache
       nextId := sys.nextId + 1
       riskCalls := sys.riskCalls + (if validRequest req then 1 else 0) })
  | _, _ =>
    (⟨sys.nextId, TxStatus.Rejected, 422, "validation error: unknown account"⟩,
     { sys with nextId := sys.nextId + 1 })

/-- Modelled from the spec: one submission against the engine (spec
sections 4.2 and 4.5): a request carrying an idempotency key first looks
the key up; a hit returns the stored result verbatim with no re-execution
of the ledger mutation or the risk gate; a miss runs the orchestration and
persists the `(key, result)` mapping before returning; a request with no
key is never deduplicated. -/
def submit (risk : RiskResult) (sys : Sys) (req : TransferRequest) :
    StoredResult × Sys :=
  match req.idempotencyKey with
  | some k =>
    match findStored sys.cache k with
    | some r => (r, sys)
    | none =>
      let p := runNew risk sys req
      (p.1, { p.2 with cache := (k, p.1) :: p.2.cache })
  | none => runNew risk sys req

/-- Modelled from the spec: the request tuple the Risk Gate Client sends
to the external scorer — `(fromAccount, toAccount, amount, currency,
transactionType)` and nothing else (spec section 4.3). -/
def riskTuple (r : TransferRequest) :
    String × String × Int × String × Option TxType :=
  (r.fromAccount, r.toAccount, r.amount, r.currency, r.transactionType)

/-- Modelled from the spec: a direct risk-analysis call — the external
scorer, modelled as a pure function of the request tuple per its interface
(spec section 4.3, section 6), applied to the tuple extracted from the
request. -/
def analyzeScore (scorer : String × String × Int × String × Option TxType → Nat)
    (r : TransferRequest) : Nat :=
  scorer (riskTuple r)

/-- A valid request has an amount within [0.01, 1,000,000.00] in cents. -/
theorem validRequest_amount (r : TransferRequest) (h : validRequest r = true) :
    1 ≤ r.amount ∧ r.amount ≤ 100000000 := by
  simp only [validRequest, Bool.and_eq_true, decide_eq_true_eq] at h
  exact ⟨h.1.2, h.2⟩

/-- Every fee of the schedule is nonnegative. -/
theorem feeFor_nonneg (v : Bool) (t : Option TxType) : 0 ≤ feeFor v t := by
  cases v
  · rcases t with _ | tt
    · norm_num [feeFor]
    · cases tt <;> norm_num [feeFor]
  · norm_num [feeFor]

/-- An invalid request is rejected as a validation failure with no mutation. -/
theorem processTransfer_invalid (risk : RiskResult) (fa ta : Account)
    (req : TransferRequest) (hv : validRequest req = false) :
    processTransfer risk fa ta req =
      ⟨TxStatus.Rejected, 422, "validation error: malformed transfer request", fa, ta⟩ := by
  simp [processTransfer, hv]

/-- A blocking risk result on a valid request yields the Blocked outcome. -/
theorem processTransfer_blockedEq (risk : RiskResult) (fa ta : Account)
    (req : TransferRequest) (hv : validRequest req = true)
    (hb : riskBlocks risk = true) :
    processTransfer risk fa ta req =
      ⟨TxStatus.Blocked, 403, "transaction blocked by fraud detection", fa, ta⟩ := by
  simp [processTransfer, hv, hb]

/-- A daily-limit breach past the risk gate yields the daily-limit rejection. -/
theorem processTransfer_dailyEq (risk : RiskResult) (fa ta : Account)
    (req : TransferRequest) (hv : validRequest req = true)
    (hr : riskBlocks risk = false)
    (hd : fa.dailyLimit < fa.dailyUsed + req.amount) :
    processTransfer risk fa ta req =
      ⟨TxStatus.Rejected, 400, "daily limit exceeded for account", fa, ta⟩ := by
  simp [processTransfer, hv, hr, hd]

/-- Insufficient funds past the daily-limit check yields the funds rejection. -/
theorem processTransfer_fundsEq (risk : RiskResult) (fa ta : Account)
    (req : TransferRequest) (hv : validRequest req = true)
    (hr : riskBlocks risk = false)
    (hd : fa.dailyUsed + req.amount ≤ fa.dailyLimit)
    (hf : fa.balance + fa.overdraftLimit <
      req.amount + feeFor fa.isVip req.transactionType) :
    processTransfer risk fa ta req =
      ⟨TxStatus.Rejected, 400, "insufficient funds including fee", fa, ta⟩ := by
  simp [processTransfer, hv, hr, not_lt.mpr hd, hf]

/-- When every check passes, the atomic ledger apply runs and the transfer
completes. -/
theorem processTransfer_completedEq (risk : RiskResult) (fa ta : Account)
    (req : TransferRequest) (hv : validRequest req = true)
    (hr : riskBlocks risk = false)
    (hd : fa.dailyUsed + req.amount ≤ fa.dailyLimit)
    (hf : req.amount + feeFor fa.isVip req.transactionType ≤
      fa.balance + fa.overdraftLimit) :
    processTransfer risk fa ta req =
      ⟨TxStatus.Completed, 200, "transaction completed",
        (applyLedger fa ta req.amount (feeFor fa.isVip req.transactionType)).1,
        (applyLedger fa ta req.amount (feeFor fa.isVip req.transactionType)).2⟩ := by
  simp [processTransfer, hv, hr, not_lt.mpr hd, not_lt.mpr hf]

/-- The orchestrator ends Blocked exactly when the request is valid and the
risk gate's result blocks. -/
theorem processTransfer_blocked_iff (risk : RiskResult) (fa ta : Account)
    (req : TransferRequest) :
    (processTransfer risk fa ta req).status = TxStatus.Blocked ↔
      (validRequest req = true ∧ riskBlocks risk = true) := by
  by_cases hv : validRequest req = true
  · by_cases hb : riskBlocks risk = true
    · rw [processTransfer_blockedEq risk fa ta req hv hb]
      simp [hv, hb]
    · simp only [hv, hb, true_and]
      unfold processTransfer
      simp only [hv, if_true, Bool.not_eq_true] at *
      simp only [hb, if_false, Bool.false_eq_true]
      split
      · simp
      · split <;> simp
  · rw [processTransfer_invalid risk fa ta req (by simpa using hv)]
    simp [hv]

/-- The debited account's daily limit is never changed by one orchestration. -/
theorem processTransfer_dailyLimit_eq (risk : RiskResult) (fa ta : Account)
    (req : TransferRequest) :
    (processTransfer risk fa ta req).fromAfter.dailyLimit = fa.dailyLimit := by
  unfold processTransfer
  split
  · split
    · rfl
    · split
      · rfl
      · split
        · rfl
        · simp [applyLedger]
  · rfl

/-- One orchestration keeps the debited account's accumulated daily volume
within its daily limit. -/
theorem processTransfer_dailyUsed_le (risk : RiskResult) (fa ta : Account)
    (req : TransferRequest) (h : fa.dailyUsed ≤ fa.dailyLimit) :
    (processTransfer risk fa ta req).fromAfter.dailyUsed ≤ fa.dailyLimit := by
  unfold processTransfer
  split
  · split
    · exact h
    · split
      · exact h
      · split
        · exact h
        · simp only [applyLedger]
          omega
  · exact h

/-- C3: for every valid transfer request for which the risk gate returns a
riskScore greater than 60, the orchestrator ends in terminal state Blocked
without mutating either account's ledger state, independent of funds
sufficiency (no funds hypothesis appears), and the response is HTTP 403
with a message containing "fraud". -/
theorem claim3_high_risk_blocked (n : Nat) (fa ta : Account)
    (req : TransferRequest) (hn : 60 < n) (hv : validRequest req = true) :
    (processTransfer (RiskResult.Scored n) fa ta req).status = TxStatus.Blocked ∧
    (processTransfer (RiskResult.Scored n) fa ta req).httpStatus = 403 ∧
    msgHas "fraud" (processTransfer (RiskResult.Scored n) fa ta req).message = true ∧
    (processTransfer (RiskResult.Scored n) fa ta req).fromAfter = fa ∧
    (processTransfer (RiskResult.Scored n) fa ta req).toAfter = ta := by
  have hb : riskBlocks (RiskResult.Scored n) = true := by
    simp [riskBlocks, hn]
  rw [processTransfer_blockedEq (RiskResult.Scored n) fa ta req hv hb]
  exact ⟨rfl, rfl, rfl, rfl, rfl⟩

/-- C3 witness: the integration-test scenario — score 95 on a request
debiting account 9999999999 whose balance (100.00) is far below the
amount (99,999.00), so funds are insufficient, yet the outcome is
Blocked/403 with a "fraud" message and no mutation. -/
theorem claim3_high_risk_blocked_w :
    (processTransfer (RiskResult.Scored 95)
      ⟨"9999999999", 10000, 500000000, 0, false, 0, 0⟩
      ⟨"2222222222", 5000000, 500000000, 0, true, 0, 0⟩
      ⟨"9999999999", "2222222222", 9999900, "USD", some TxType.WT, none⟩).status =
        TxStatus.Blocked ∧
    (processTransfer (RiskResult.Scored 95)
      ⟨"9999999999", 10000, 500000000, 0, false, 0, 0⟩
      ⟨"2222222222", 5000000, 500000000, 0, true, 0, 0⟩
      ⟨"9999999999", "2222222222", 9999900, "USD", some TxType.WT, none⟩).httpStatus = 403 ∧
    msgHas "fraud" (processTransfer (RiskResult.Scored 95)
      ⟨"9999999999", 10000, 500000000, 0, false, 0, 0⟩
      ⟨"2222222222", 5000000, 500000000, 0, true, 0, 0⟩
      ⟨"9999999999", "2222222222", 9999900, "USD", some TxType.WT, none⟩).message = true ∧
    (processTransfer (RiskResult.Scored 95)
      ⟨"9999999999", 10000, 500000000, 0, false, 0, 0⟩
      ⟨"2222222222", 5000000, 500000000, 0, true, 0, 0⟩
      ⟨"9999999999", "2222222222", 9999900, "USD", some TxType.WT, none⟩).fromAfter =
        ⟨"9999999999", 10000, 500000000, 0, false, 0, 0⟩ ∧
    (processTransfer (RiskResult.Scored 95)
      ⟨"9999999999", 10000, 500000000, 0, false, 0, 0⟩
      ⟨"2222222222", 5000000, 500000000, 0, true, 0, 0⟩
      ⟨"9999999999", "2222222222", 9999900, "USD", some TxType.WT, none⟩).toAfter =
        ⟨"2222222222", 5000000, 500000000, 0, true, 0, 0⟩ :=
  claim3_high_risk_blocked 95 _ _ _ (by decide) (by decide)

/-- C4: for every valid transfer request that passes the risk gate and the
daily-limit check but has `balance + overdraftLimit < amount + fee`, the
request is rejected with the insufficient-funds error mapped to HTTP 400,
the message contains "insufficient funds", and neither account is mutated
(pre-state equals post-state on every field). -/
theorem claim4_insufficient_funds_rejected (risk : RiskResult)
    (fa ta : Account) (req : TransferRequest)
    (hv : validRequest req = true) (hr : riskBlocks risk = false)
    (hd : fa.dailyUsed + req.amount ≤ fa.dailyLimit)
    (hf : fa.balance + fa.overdraftLimit <
      req.amount + feeFor fa.isVip req.transactionType) :
    (processTransfer risk fa ta req).status = TxStatus.Rejected ∧
    (processTransfer risk fa ta req).httpStatus = 400 ∧
    msgHas "insufficient funds" (processTransfer risk fa ta req).message = true ∧
    (processTransfer risk fa ta req).fromAfter = fa ∧
    (processTransfer risk fa ta req).toAfter = ta := by
  rw [processTransfer_fundsEq risk fa ta req hv hr hd hf]
  exact ⟨rfl, rfl, rfl, rfl, rfl⟩

/-- C4 witness: the integration-test scenario — account 9999999999 with
balance 100.00 and no overdraft, Domestic transfer of 200.00 (fee 2.50):
100.00 + 0 < 202.50, so the outcome is Rejected/400 with an
"insufficient funds" message and no mutation. -/
theorem claim4_insufficient_funds_rejected_w :
    (processTransfer (RiskResult.Scored 10)
      ⟨"9999999999", 10000, 500000000, 0, false, 0, 0⟩
      ⟨"2222222222", 5000000, 500000000, 0, true, 0, 0⟩
      ⟨"9999999999", "2222222222", 20000, "USD", some TxType.DM, none⟩).status =
        TxStatus.Rejected ∧
    (processTransfer (RiskResult.Scored 10)
      ⟨"9999999999", 10000, 500000000, 0, false, 0, 0⟩
      ⟨"2222222222", 5000000, 500000000, 0, true, 0, 0⟩
      ⟨"9999999999", "2222222222", 20000, "USD", some TxType.DM, none⟩).httpStatus = 400 ∧
    msgHas "insufficient funds" (processTransfer (RiskResult.Scored 10)
      ⟨"9999999999", 10000, 500000000, 0, false, 0, 0⟩
      ⟨"2222222222", 5000000, 500000000, 0, true, 0, 0⟩
      ⟨"9999999999", "2222222222", 20000, "USD", some TxType.DM, none⟩).message = true ∧
    (processTransfer (RiskResult.Scored 10)
      ⟨"9999999999", 10000, 500000000, 0, false, 0, 0⟩
      ⟨"2222222222", 5000000, 500000000, 0, true, 0, 0⟩
      ⟨"9999999999", "2222222222", 20000, "USD", some TxType.DM, none⟩).fromAfter =
        ⟨"9999999999", 10000, 500000000, 0, false, 0, 0⟩ ∧
    (processTransfer (RiskResult.Scored 10)
      ⟨"9999999999", 10000, 500000000, 0, false, 0, 0⟩
      ⟨"2222222222", 5000000, 500000000, 0, true, 0, 0⟩
      ⟨"9999999999", "2222222222", 20000, "USD", some TxType.DM, none⟩).toAfter =
        ⟨"2222222222", 5000000, 500000000, 0, true, 0, 0⟩ :=
  claim4_insufficient_funds_rejected (RiskResult.Scored 10) _ _ _
    (by decide) (by decide) (by decide) (by decide)

/-- C5: when the risk-gate call times out or the dependency is unavailable
(the `Unavailable` result), the orchestrator proceeds fail-open: the
outcome is identical to an acceptable risk score, the `Unavailable`
result alone never yields Blocked and is never surfaced as an error (the
request ends Completed or Rejected purely per the normal funds/validation
rules). Wall-clock deadlines are outside the shallow embedding; the
functional fail-open contract is what is stated. -/
theorem claim5_risk_unavailable_fail_open (fa ta : Account)
    (req : TransferRequest) :
    processTransfer RiskResult.Unavailable fa ta req =
      processTransfer (RiskResult.Scored 0) fa ta req ∧
    ((processTransfer RiskResult.Unavailable fa ta req).status = TxStatus.Completed ∨
     (processTransfer RiskResult.Unavailable fa ta req).status = TxStatus.Rejected) ∧
    (processTransfer RiskResult.Unavailable fa ta req).status ≠ TxStatus.Blocked := by
  have hnb : (processTransfer RiskResult.Unavailable fa ta req).status ≠
      TxStatus.Blocked := by
    intro hcon
    have := (processTransfer_blocked_iff RiskResult.Unavailable fa ta req).mp hcon
    simp [riskBlocks] at this
  refine ⟨by simp [processTransfer, riskBlocks], ?_, hnb⟩
  cases hst : (processTransfer RiskResult.Unavailable fa ta req).status
  · exact Or.inl rfl
  · exact absurd hst hnb
  · exact Or.inr rfl

/-- C9: every transfer request in which an account number is not exactly
10 digits, or the two accounts coincide, or the amount lies outside
[0.01, 1,000,000.00] in cents (covering non-positive amounts), terminates
Rejected as a validation error mapped to HTTP 422 with no ledger effect,
for every risk result. -/
theorem claim9_validation_rejected (risk : RiskResult) (fa ta : Account)
    (req : TransferRequest)
    (h : validAccountNumber req.fromAccount = false ∨
         validAccountNumber req.toAccount = false ∨
         req.fromAccount = req.toAccount ∨
         req.amount < 1 ∨ 100000000 < req.amount) :
    (processTransfer risk fa ta req).status = TxStatus.Rejected ∧
    (processTransfer risk fa ta req).httpStatus = 422 ∧
    (processTransfer risk fa ta req).fromAfter = fa ∧
    (processTransfer risk fa ta req).toAfter = ta := by
  have hv : validRequest req = false := by
    cases hvb : validRequest req
    · rfl
    · exfalso
      simp only [validRequest, Bool.and_eq_true, Bool.not_eq_true',
        decide_eq_true_eq, decide_eq_false_iff_not] at hvb
      rcases h with h | h | h | h | h
      · rw [h] at hvb
        exact absurd hvb.1.1.1.1 (by simp)
      · rw [h] at hvb
        exact absurd hvb.1.1.1.2 (by simp)
      · exact hvb.1.1.2 h
      · omega
      · omega
  rw [processTransfer_invalid risk fa ta req hv]
  exact ⟨rfl, rfl, rfl, rfl⟩

/-- C9 witness: the integration-test scenario — a 3-character source
account number is a validation failure: Rejected/422 with no mutation. -/
theorem claim9_validation_rejected_w :
    (processTransfer (RiskResult.Scored 10)
      ⟨"1111111111", 1000000, 500000000, 0, false, 0, 0⟩
      ⟨"2222222222", 5000000, 500000000, 0, true, 0, 0⟩
      ⟨"123", "2222222222", 10000, "USD", none, none⟩).status = TxStatus.Rejected ∧
    (processTransfer (RiskResult.Scored 10)
      ⟨"1111111111", 1000000, 500000000, 0, false, 0, 0⟩
      ⟨"2222222222", 5000000, 500000000, 0, true, 0, 0⟩
      ⟨"123", "2222222222", 10000, "USD", none, none⟩).httpStatus = 422 ∧
    (processTransfer (RiskResult.Scored 10)
      ⟨"1111111111", 1000000, 500000000, 0, false, 0, 0⟩
      ⟨"2222222222", 5000000, 500000000, 0, true, 0, 0⟩
      ⟨"123", "2222222222", 10000, "USD", none, none⟩).fromAfter =
        ⟨"1111111111", 1000000, 500000000, 0, false, 0, 0⟩ ∧
    (processTransfer (RiskResult.Scored 10)
      ⟨"1111111111", 1000000, 500000000, 0, false, 0, 0⟩
      ⟨"2222222222", 5000000, 500000000, 0, true, 0, 0⟩
      ⟨"123", "2222222222", 10000, "USD", none, none⟩).toAfter =
        ⟨"2222222222", 5000000, 500000000, 0, true, 0, 0⟩ :=
  claim9_validation_rejected (RiskResult.Scored 10) _ _ _ (Or.inl (by decide))

/-- C6: for every valid non-VIP Domestic transfer (a request omitting the
type falls under the Domestic 2.50 schedule as well) that passes the risk
gate, the daily limit, and the funds check, the post-transfer source
balance is B − A − 2.50 and the destination balance is C + A (in cents:
fee 250), with status Completed. -/
theorem claim6_domestic_post_balances (risk : RiskResult) (fa ta : Account)
    (req : TransferRequest)
    (hv : validRequest req = true) (hr : riskBlocks risk = false)
    (hvip : fa.isVip = false)
    (ht : req.transactionType = some TxType.DM ∨ req.transactionType = none)
    (hd : fa.dailyUsed + req.amount ≤ fa.dailyLimit)
    (hf : req.amount + 250 ≤ fa.balance + fa.overdraftLimit) :
    (processTransfer risk fa ta req).status = TxStatus.Completed ∧
    (processTransfer risk fa ta req).fromAfter.balance =
      fa.balance - req.amount - 250 ∧
    (processTransfer risk fa ta req).toAfter.balance = ta.balance + req.amount := by
  have hfee : feeFor fa.isVip req.transactionType = 250 := by
    rcases ht with h | h <;> simp [feeFor, hvip, h]
  have hcompleted := processTransfer_completedEq risk fa ta req hv hr hd
    (by rw [hfee]; exact hf)
  rw [hcompleted]
  refine ⟨rfl, ?_, ?_⟩
  · simp [applyLedger, hfee]
  · simp [applyLedger]

/-- C6 witness: the integration-test scenario — a Domestic transfer of
100.00 from 1111111111 (balance 10000.00, non-VIP) to 2222222222 (balance
50000.00) completes with post-balances 9897.50 and 50100.00 (in cents:
989750 and 5010000). -/
theorem claim6_domestic_post_balances_w :
    (processTransfer (RiskResult.Scored 10)
      ⟨"1111111111", 1000000, 500000000, 0, false, 0, 0⟩
      ⟨"2222222222", 5000000, 500000000, 0, true, 0, 0⟩
      ⟨"1111111111", "2222222222", 10000, "USD", some TxType.DM, none⟩).status =
        TxStatus.Completed ∧
    (processTransfer (RiskResult.Scored 10)
      ⟨"1111111111", 1000000, 500000000, 0, false, 0, 0⟩
      ⟨"2222222222", 5000000, 500000000, 0, true, 0, 0⟩
      ⟨"1111111111", "2222222222", 10000, "USD", some TxType.DM, none⟩).fromAfter.balance =
        989750 ∧
    (processTransfer (RiskResult.Scored 10)
      ⟨"1111111111", 1000000, 500000000, 0, false, 0, 0⟩
      ⟨"2222222222", 5000000, 500000000, 0, true, 0, 0⟩
      ⟨"1111111111", "2222222222", 10000, "USD", some TxType.DM, none⟩).toAfter.balance =
        5010000 := by
  have h := claim6_domestic_post_balances (RiskResult.Scored 10)
    ⟨"1111111111", 1000000, 500000000, 0, false, 0, 0⟩
    ⟨"2222222222", 5000000, 500000000, 0, true, 0, 0⟩
    ⟨"1111111111", "2222222222", 10000, "USD", some TxType.DM, none⟩
    (by decide) (by decide) rfl (Or.inl rfl) (by decide) (by decide)
  refine ⟨h.1, ?_, ?_⟩
  · rw [h.2.1]; decide
  · rw [h.2.2]; decide

/-- C7: every transfer debiting a VIP account carries fee exactly 0
regardless of the transaction type (Wire included), so when such a
transfer completes the debited balance decreases by exactly the transfer
amount. -/
theorem claim7_vip_zero_fee :
    (∀ t : Option TxType, feeFor true t = 0) ∧
    (∀ (risk : RiskResult) (fa ta : Account) (req : TransferRequest),
      validRequest req = true → riskBlocks risk = false → fa.isVip = true →
      fa.dailyUsed + req.amount ≤ fa.dailyLimit →
      req.amount ≤ fa.balance + fa.overdraftLimit →
      (processTransfer risk fa ta req).status = TxStatus.Completed ∧
      (processTransfer risk fa ta req).fromAfter.balance =
        fa.balance - req.amount) := by
  have hfee : ∀ t : Option TxType, feeFor true t = 0 := by
    intro t
    simp [feeFor]
  refine ⟨hfee, ?_⟩
  intro risk fa ta req hv hr hvip hd hf
  have hfee' : feeFor fa.isVip req.transactionType = 0 := by
    rw [hvip]; exact hfee req.transactionType
  have hcompleted := processTransfer_completedEq risk fa ta req hv hr hd
    (by rw [hfee']; omega)
  rw [hcompleted]
  refine ⟨rfl, ?_⟩
  simp [applyLedger, hfee']

/-- C7 witness: the integration-test scenario — a Wire transfer of 200.00
from the VIP account 2222222222 (balance 50000.00) carries fee 0 (although
the non-VIP Wire fee is 35.00) and leaves balance 49800.00 (4980000
cents). -/
theorem claim7_vip_zero_fee_w :
    feeFor true (some TxType.WT) = 0 ∧
    (processTransfer (RiskResult.Scored 10)
      ⟨"2222222222", 5000000, 500000000, 0, true, 0, 0⟩
      ⟨"1111111111", 1000000, 500000000, 0, false, 0, 0⟩
      ⟨"2222222222", "1111111111", 20000, "USD", some TxType.WT, none⟩).status =
        TxStatus.Completed ∧
    (processTransfer (RiskResult.Scored 10)
      ⟨"2222222222", 5000000, 500000000, 0, true, 0, 0⟩
      ⟨"1111111111", 1000000, 500000000, 0, false, 0, 0⟩
      ⟨"2222222222", "1111111111", 20000, "USD", some TxType.WT, none⟩).fromAfter.balance =
        4980000 := by
  have h := claim7_vip_zero_fee.2 (RiskResult.Scored 10)
    ⟨"2222222222", 5000000, 500000000, 0, true, 0, 0⟩
    ⟨"1111111111", 1000000, 500000000, 0, false, 0, 0⟩
    ⟨"2222222222", "1111111111", 20000, "USD", some TxType.WT, none⟩
    (by decide) (by decide) rfl (by decide) (by decide)
  refine ⟨claim7_vip_zero_fee.1 (some TxType.WT), h.1, ?_⟩
  rw [h.2]; decide

/-- C8: a valid request past the risk gate with
`dailyUsed + amount > dailyLimit` is rejected with the daily-limit error
mapped to HTTP 400 and a message containing "daily limit", with no
mutation; consequently, along any serialized sequence of requests debiting
an account whose accumulated daily volume starts within its limit, the
accumulated volume never exceeds the daily limit. -/
theorem claim8_daily_limit_enforced :
    (∀ (risk : RiskResult) (fa ta : Account) (req : TransferRequest),
      validRequest req = true → riskBlocks risk = false →
      fa.dailyLimit < fa.dailyUsed + req.amount →
      (processTransfer risk fa ta req).status = TxStatus.Rejected ∧
      (processTransfer risk fa ta req).httpStatus = 400 ∧
      msgHas "daily limit" (processTransfer risk fa ta req).message = true ∧
      (processTransfer risk fa ta req).fromAfter = fa ∧
      (processTransfer risk fa ta req).toAfter = ta) ∧
    (∀ (risk : RiskResult) (reqs : List TransferRequest) (fa ta : Account),
      fa.dailyUsed ≤ fa.dailyLimit →
      (runSeq risk reqs fa ta).1.dailyUsed ≤ fa.dailyLimit) := by
  constructor
  · intro risk fa ta req hv hr hd
    rw [processTransfer_dailyEq risk fa ta req hv hr hd]
    exact ⟨rfl, rfl, rfl, rfl, rfl⟩
  · intro risk reqs
    induction reqs with
    | nil =>
      intro fa ta h
      simpa [runSeq] using h
    | cons req rest ih =>
      intro fa ta h
      have hstep := processTransfer_dailyUsed_le risk fa ta req h
      have hlim := processTransfer_dailyLimit_eq risk fa ta req
      have hrec := ih (processTransfer risk fa ta req).fromAfter
        (processTransfer risk fa ta req).toAfter (by rw [hlim]; exact hstep)
      simp only [runSeq]
      rw [hlim] at hrec
      exact hrec

/-- C8 witness: instantiating both parts — a Domestic request of 20,000.00
from an account that has already used 4,990,000.00 of its 5,000,000.00
daily limit is rejected with 400 and a "daily limit" message without
mutation; and a batch starting within the limit stays within it. -/
theorem claim8_daily_limit_enforced_w :
    ((processTransfer (RiskResult.Scored 10)
      ⟨"3333333333", 10000000, 500000000, 499000000, false, 10000000, 0⟩
      ⟨"1111111111", 1000000, 500000000, 0, false, 0, 0⟩
      ⟨"3333333333", "1111111111", 2000000, "USD", some TxType.DM, none⟩).status =
        TxStatus.Rejected ∧
    (processTransfer (RiskResult.Scored 10)
      ⟨"3333333333", 10000000, 500000000, 499000000, false, 10000000, 0⟩
      ⟨"1111111111", 1000000, 500000000, 0, false, 0, 0⟩
      ⟨"3333333333", "1111111111", 2000000, "USD", some TxType.DM, none⟩).httpStatus =
        400 ∧
    msgHas "daily limit" (processTransfer (RiskResult.Scored 10)
      ⟨"3333333333", 10000000, 500000000, 499000000, false, 10000000, 0⟩
      ⟨"1111111111", 1000000, 500000000, 0, false, 0, 0⟩
      ⟨"3333333333", "1111111111", 2000000, "USD", some TxType.DM, none⟩).message =
        true ∧
    (processTransfer (RiskResult.Scored 10)
      ⟨"3333333333", 10000000, 500000000, 499000000, false, 10000000, 0⟩
      ⟨"1111111111", 1000000, 500000000, 0, false, 0, 0⟩
      ⟨"3333333333", "1111111111", 2000000, "USD", some TxType.DM, none⟩).fromAfter =
        ⟨"3333333333", 10000000, 500000000, 499000000, false, 10000000, 0⟩ ∧
    (processTransfer (RiskResult.Scored 10)
      ⟨"3333333333", 10000000, 500000000, 499000000, false, 10000000, 0⟩
      ⟨"1111111111", 1000000, 500000000, 0, false, 0, 0⟩
      ⟨"3333333333", "1111111111", 2000000, "USD", some TxType.DM, none⟩).toAfter =
        ⟨"1111111111", 1000000, 500000000, 0, false, 0, 0⟩) ∧
    (runSeq (RiskResult.Scored 10)
      (List.replicate 3
        ⟨"3333333333", "1111111111", 200000000, "USD", some TxType.DM, none⟩)
      ⟨"3333333333", 1000000000, 500000000, 0, false, 100000000, 0⟩
      ⟨"1111111111", 1000000, 500000000, 0, false, 0, 0⟩).1.dailyUsed ≤
      500000000 :=
  ⟨claim8_daily_limit_enforced.1 (RiskResult.Scored 10) _ _ _
      (by decide) (by decide) (by decide),
   claim8_daily_limit_enforced.2 (RiskResult.Scored 10) _
      ⟨"3333333333", 1000000000, 500000000, 0, false, 100000000, 0⟩
      ⟨"1111111111", 1000000, 500000000, 0, false, 0, 0⟩ (by decide)⟩

/-- A submission whose idempotency key has a stored entry returns the
stored result verbatim and leaves the system state untouched. -/
theorem submit_hit (risk : RiskResult) (sys : Sys) (req : TransferRequest)
    (k : String) (r : StoredResult) (hk : req.idempotencyKey = some k)
    (hhit : findStored sys.cache k = some r) :
    submit risk sys req = (r, sys) := by
  simp [submit, hk, hhit]

/-- A first submission of an idempotency key runs a fresh orchestration
and persists the `(key, result)` mapping. -/
theorem submit_miss (risk : RiskResult) (sys : Sys) (req : TransferRequest)
    (k : String) (hk : req.idempotencyKey = some k)
    (hmiss : findStored sys.cache k = none) :
    submit risk sys req =
      ((runNew risk sys req).1,
       { (runNew risk sys req).2 with
          cache := (k, (runNew risk sys req).1) :: (runNew risk sys req).2.cache }) := by
  simp [submit, hk, hmiss]

/-- C2: for a request carrying an idempotency key with no stored entry
yet, a second submission after the first has completed — even with a
different risk-gate result — returns the stored result verbatim (same
transactionId, same terminal status) and changes nothing: the entire
system state is unchanged, so the debited account is charged exactly once,
no second ledger mutation happens, and the risk-call counter shows no
second risk-gate call. -/
theorem claim2_idempotent_resubmission (risk1 risk2 : RiskResult) (sys : Sys)
    (req : TransferRequest) (k : String)
    (hk : req.idempotencyKey = some k)
    (hmiss : findStored sys.cache k = none) :
    (submit risk2 (submit risk1 sys req).2 req).1 = (submit risk1 sys req).1 ∧
    (submit risk2 (submit risk1 sys req).2 req).2 = (submit risk1 sys req).2 ∧
    (submit risk2 (submit risk1 sys req).2 req).1.transactionId =
      (submit risk1 sys req).1.transactionId ∧
    (submit risk2 (submit risk1 sys req).2 req).1.status =
      (submit risk1 sys req).1.status ∧
    (submit risk2 (submit risk1 sys req).2 req).2.accounts =
      (submit risk1 sys req).2.accounts ∧
    (submit risk2 (submit risk1 sys req).2 req).2.riskCalls =
      (submit risk1 sys req).2.riskCalls := by
  have h1 := submit_miss risk1 sys req k hk hmiss
  have hhit : findStored (submit risk1 sys req).2.cache k =
      some (submit risk1 sys req).1 := by
    rw [h1]
    simp [findStored]
  have h2 := submit_hit risk2 (submit risk1 sys req).2 req k
    (submit risk1 sys req).1 hk hhit
  rw [h2]
  exact ⟨rfl, rfl, rfl, rfl, rfl, rfl⟩

/-- C2 witness: a concrete two-account system; the first submission with
key "idem-1" completes, the second returns the identical stored result
with the system state — accounts, cache, risk-call count — unchanged. -/
theorem claim2_idempotent_resubmission_w :
    (submit (RiskResult.Scored 20)
      (submit (RiskResult.Scored 10)
        ⟨[("1111111111", ⟨"1111111111", 1000000, 500000000, 0, false, 0, 0⟩),
          ("2222222222", ⟨"2222222222", 5000000, 500000000, 0, true, 0, 0⟩)],
         [], 0, 0⟩
        ⟨"1111111111", "2222222222", 5000, "USD", none, some "idem-1"⟩).2
      ⟨"1111111111", "2222222222", 5000, "USD", none, some "idem-1"⟩).1 =
    (submit (RiskResult.Scored 10)
      ⟨[("1111111111", ⟨"1111111111", 1000000, 500000000, 0, false, 0, 0⟩),
        ("2222222222", ⟨"2222222222", 5000000, 500000000, 0, true, 0, 0⟩)],
       [], 0, 0⟩
      ⟨"1111111111", "2222222222", 5000, "USD", none, some "idem-1"⟩).1 ∧
    (submit (RiskResult.Scored 20)
      (submit (RiskResult.Scored 10)
        ⟨[("1111111111", ⟨"1111111111", 1000000, 500000000, 0, false, 0, 0⟩),
          ("2222222222", ⟨"2222222222", 5000000, 500000000, 0, true, 0, 0⟩)],
         [], 0, 0⟩
        ⟨"1111111111", "2222222222", 5000, "USD", none, some "idem-1"⟩).2
      ⟨"1111111111", "2222222222", 5000, "USD", none, some "idem-1"⟩).2 =
    (submit (RiskResult.Scored 10)
      ⟨[("1111111111", ⟨"1111111111", 1000000, 500000000, 0, false, 0, 0⟩),
        ("2222222222", ⟨"2222222222", 5000000, 500000000, 0, true, 0, 0⟩)],
       [], 0, 0⟩
      ⟨"1111111111", "2222222222", 5000, "USD", none, some "idem-1"⟩).2 := by
  have h := claim2_idempotent_resubmission (RiskResult.Scored 10)
    (RiskResult.Scored 20)
    ⟨[("1111111111", ⟨"1111111111", 1000000, 500000000, 0, false, 0, 0⟩),
      ("2222222222", ⟨"2222222222", 5000000, 500000000, 0, true, 0, 0⟩)],
     [], 0, 0⟩
    ⟨"1111111111", "2222222222", 5000, "USD", none, some "idem-1"⟩
    "idem-1" rfl rfl
  exact ⟨h.1, h.2.1⟩

/-- C10: with the external scorer modelled as a pure function of the
request tuple `(fromAccount, toAccount, amount, currency,
transactionType)` per its interface, any two requests carrying the same
tuple — they may differ in fields outside the tuple, such as the
idempotency key — receive the same score, and a direct risk-analysis call
agrees with a subsequent valid transfer submission on whether the score
exceeds 60: the submission is Blocked exactly when the direct call's
score is above the threshold. -/
theorem claim10_risk_score_deterministic
    (scorer : String × String × Int × String × Option TxType → Nat)
    (r1 r2 : TransferRequest) (fa ta : Account)
    (h : riskTuple r1 = riskTuple r2) (hv : validRequest r2 = true) :
    analyzeScore scorer r1 = analyzeScore scorer r2 ∧
    (60 < analyzeScore scorer r1 ↔
      (processTransfer (RiskResult.Scored (analyzeScore scorer r2)) fa ta r2).status =
        TxStatus.Blocked) := by
  have hs : analyzeScore scorer r1 = analyzeScore scorer r2 := by
    unfold analyzeScore
    rw [h]
  refine ⟨hs, ?_⟩
  rw [processTransfer_blocked_iff]
  simp [riskBlocks, hv, hs]

/-- C10 witness: a concrete amount-thresholded scorer and two requests
identical on the tuple but differing in idempotency key: both score 90,
and the transfer submission is Blocked in agreement with the direct call. -/
theorem claim10_risk_score_deterministic_w :
    analyzeScore (fun t => if 100000 < t.2.2.1 then 90 else 10)
      ⟨"9999999999", "2222222222", 9999900, "USD", some TxType.WT, none⟩ =
    analyzeScore (fun t => if 100000 < t.2.2.1 then 90 else 10)
      ⟨"9999999999", "2222222222", 9999900, "USD", some TxType.WT, some "retry-1"⟩ ∧
    (60 < analyzeScore (fun t => if 100000 < t.2.2.1 then 90 else 10)
      ⟨"9999999999", "2222222222", 9999900, "USD", some TxType.WT, none⟩ ↔
      (processTransfer
        (RiskResult.Scored (analyzeScore (fun t => if 100000 < t.2.2.1 then 90 else 10)
          ⟨"9999999999", "2222222222", 9999900, "USD", some TxType.WT, some "retry-1"⟩))
        ⟨"9999999999", 10000, 500000000, 0, false, 0, 0⟩
        ⟨"2222222222", 5000000, 500000000, 0, true, 0, 0⟩
        ⟨"9999999999", "2222222222", 9999900, "USD", some TxType.WT, some "retry-1"⟩).status =
        TxStatus.Blocked) :=
  claim10_risk_score_deterministic (fun t => if 100000 < t.2.2.1 then 90 else 10)
    ⟨"9999999999", "2222222222", 9999900, "USD", some TxType.WT, none⟩
    ⟨"9999999999", "2222222222", 9999900, "USD", some TxType.WT, some "retry-1"⟩
    ⟨"9999999999", 10000, 500000000, 0, false, 0, 0⟩
    ⟨"2222222222", 5000000, 500000000, 0, true, 0, 0⟩
    rfl (by decide)

/-- Serializing n identical valid debit requests: the final balance is the
initial balance minus (success count)·(amount+fee), the final balance
respects the overdraft floor, and whenever some request failed, one more
success would have breached the floor — the success count is the largest
achievable. Proved by induction on the batch, threading the account
snapshots. -/
theorem runSeq_replicate_debits (risk : RiskResult) (req : TransferRequest)
    (hv : validRequest req = true) (hr : riskBlocks risk = false) :
    ∀ (n : Nat) (fa ta : Account),
      -fa.overdraftLimit ≤ fa.balance →
      fa.dailyUsed + (n : Int) * req.amount ≤ fa.dailyLimit →
      ∃ k : Nat, k ≤ n ∧
        (runSeq risk (List.replicate n req) fa ta).2.2 = k ∧
        (runSeq risk (List.replicate n req) fa ta).1.balance =
          fa.balance -
            (k : Int) * (req.amount + feeFor fa.isVip req.transactionType) ∧
        -fa.overdraftLimit ≤
          fa.balance -
            (k : Int) * (req.amount + feeFor fa.isVip req.transactionType) ∧
        (k < n →
          fa.balance -
              ((k : Int) + 1) * (req.amount + feeFor fa.isVip req.transactionType) <
            -fa.overdraftLimit) := by
  intro n
  induction n with
  | zero =>
    intro fa ta h1 h2
    refine ⟨0, le_refl 0, by simp [runSeq], by simp [runSeq], by simpa using h1,
      by omega⟩
  | succ n ih =>
    intro fa ta h1 h2
    obtain ⟨ha1, ha2⟩ := validRequest_amount req hv
    have hfee := feeFor_nonneg fa.isVip req.transactionType
    have hna : 0 ≤ (n : Int) * req.amount :=
      mul_nonneg (Int.natCast_nonneg n) (by omega)
    have hexp : ((n : Int) + 1) * req.amount = (n : Int) * req.amount + req.amount := by
      ring
    have h2' : fa.dailyUsed + ((n : Int) + 1) * req.amount ≤ fa.dailyLimit := by
      push_cast at h2
      exact h2
    have hdle : fa.dailyUsed + req.amount ≤ fa.dailyLimit := by
      rw [hexp] at h2'
      linarith
    have hdn : fa.dailyUsed + (n : Int) * req.amount ≤ fa.dailyLimit := by
      rw [hexp] at h2'
      linarith
    have hrep : List.replicate (n + 1) req = req :: List.replicate n req := rfl
    by_cases hfc : fa.balance + fa.overdraftLimit <
        req.amount + feeFor fa.isVip req.transactionType
    · -- the debited account can no longer cover amount+fee: the first and
      -- every later request is rejected, the snapshots never change
      have hout := processTransfer_fundsEq risk fa ta req hv hr hdle hfc
      obtain ⟨k, hk, hcount, hbal, hge, _⟩ := ih fa ta h1 hdn
      have hkd : 0 ≤ (k : Int) * (req.amount + feeFor fa.isVip req.transactionType) :=
        mul_nonneg (Int.natCast_nonneg k) (by omega)
      refine ⟨k, by omega, ?_, ?_, hge, ?_⟩
      · rw [hrep]
        simp only [runSeq, hout]
        simpa using hcount
      · rw [hrep]
        simp only [runSeq, hout]
        simpa using hbal
      · intro _
        have hkd1 : ((k : Int) + 1) * (req.amount + feeFor fa.isVip req.transactionType) =
            (k : Int) * (req.amount + feeFor fa.isVip req.transactionType) +
              (req.amount + feeFor fa.isVip req.transactionType) := by
          ring
        rw [hkd1]
        linarith
    · -- funds suffice: the first request completes, the rest run against
      -- the debited snapshot
      have hout := processTransfer_completedEq risk fa ta req hv hr hdle
        (not_lt.mp hfc)
      have h1' : -((applyLedger fa ta req.amount
            (feeFor fa.isVip req.transactionType)).1).overdraftLimit ≤
          ((applyLedger fa ta req.amount
            (feeFor fa.isVip req.transactionType)).1).balance := by
        simp only [applyLedger]
        push_neg at hfc
        linarith
      have h2'' : ((applyLedger fa ta req.amount
            (feeFor fa.isVip req.transactionType)).1).dailyUsed +
            (n : Int) * req.amount ≤
          ((applyLedger fa ta req.amount
            (feeFor fa.isVip req.transactionType)).1).dailyLimit := by
        simp only [applyLedger]
        rw [hexp] at h2'
        linarith
      obtain ⟨k, hk, hcount, hbal, hge, hmax⟩ := ih
        (applyLedger fa ta req.amount (feeFor fa.isVip req.transactionType)).1
        (applyLedger fa ta req.amount (feeFor fa.isVip req.transactionType)).2
        h1' h2''
      simp only [applyLedger] at hcount hbal hge hmax
      refine ⟨k + 1, by omega, ?_, ?_, ?_, ?_⟩
      · rw [hrep]
        simp only [runSeq, hout]
        simpa using hcount
      · rw [hrep]
        simp only [runSeq, hout]
        simp only [applyLedger] at hbal ⊢
        rw [hbal]
        push_cast
        ring
      · have heq : fa.balance - (((k : Nat) : Int) + 1) *
              (req.amount + feeFor fa.isVip req.transactionType) =
            fa.balance - req.amount - feeFor fa.isVip req.transactionType -
              (k : Int) * (req.amount + feeFor fa.isVip req.transactionType) := by
          ring
        push_cast
        rw [heq]
        exact hge
      · intro hlt
        have hkn : k < n := by omega
        have hm := hmax hkn
        push_cast
        have heq2 : fa.balance - (((k : Nat) : Int) + 1 + 1) *
              (req.amount + feeFor fa.isVip req.transactionType) =
            fa.balance - req.amount - feeFor fa.isVip req.transactionType -
              ((k : Int) + 1) *
                (req.amount + feeFor fa.isVip req.transactionType) := by
          ring
        rw [heq2]
        exact hm

/-- C1: serializing N concurrent valid debit requests of amount+fee each
(the spec's ordering guarantee totally orders all applied mutations of an
account, so the concurrent batch is observationally a serialization in
commit order, with no update lost or applied twice): the final balance
equals B₀ − k·(amount+fee) where k is the number of requests that
completed, k ≤ N, the final balance still respects −overdraftLimit, and k
is the largest such count — if any request failed, one more completion
would have breached the overdraft floor. -/
theorem claim1_concurrent_debits (risk : RiskResult) (req : TransferRequest)
    (N : Nat) (fa ta : Account)
    (hv : validRequest req = true) (hr : riskBlocks risk = false)
    (hbal : -fa.overdraftLimit ≤ fa.balance)
    (hdl : fa.dailyUsed + (N : Int) * req.amount ≤ fa.dailyLimit) :
    ∃ k : Nat,
      (runSeq risk (List.replicate N req) fa ta).2.2 = k ∧ k ≤ N ∧
      (runSeq risk (List.replicate N req) fa ta).1.balance =
        fa.balance -
          (k : Int) * (req.amount + feeFor fa.isVip req.transactionType) ∧
      -fa.overdraftLimit ≤
        fa.balance -
          (k : Int) * (req.amount + feeFor fa.isVip req.transactionType) ∧
      (k < N →
        fa.balance -
            ((k : Int) + 1) * (req.amount + feeFor fa.isVip req.transactionType) <
          -fa.overdraftLimit) := by
  obtain ⟨k, hk, hcount, hbal', hge, hmax⟩ :=
    runSeq_replicate_debits risk req hv hr N fa ta hbal hdl
  exact ⟨k, hcount, hk, hbal', hge, hmax⟩

/-- C1 witness: 20 serialized Domestic debits of 10.00 (+2.50 fee) from a
non-VIP account with balance 50.00 and no overdraft: exactly k = 4
complete (50.00 − 4·12.50 = 0 ≥ 0, while a fifth would end at −12.50),
and the final balance is B₀ − k·12.50. -/
theorem claim1_concurrent_debits_w :
    ∃ k : Nat,
      (runSeq (RiskResult.Scored 10)
        (List.replicate 20 ⟨"1111111111", "2222222222", 1000, "USD",
          some TxType.DM, none⟩)
        ⟨"1111111111", 5000, 500000000, 0, false, 0, 0⟩
        ⟨"2222222222", 5000000, 500000000, 0, true, 0, 0⟩).2.2 = k ∧ k ≤ 20 ∧
      (runSeq (RiskResult.Scored 10)
        (List.replicate 20 ⟨"1111111111", "2222222222", 1000, "USD",
          some TxType.DM, none⟩)
        ⟨"1111111111", 5000, 500000000, 0, false, 0, 0⟩
        ⟨"2222222222", 5000000, 500000000, 0, true, 0, 0⟩).1.balance =
        (5000 : Int) - (k : Int) * (1000 + feeFor false (some TxType.DM)) ∧
      -(0 : Int) ≤ (5000 : Int) - (k : Int) * (1000 + feeFor false (some TxType.DM)) ∧
      (k < 20 →
        (5000 : Int) - ((k : Int) + 1) * (1000 + feeFor false (some TxType.DM)) <
          -(0 : Int)) :=
  claim1_concurrent_debits (RiskResult.Scored 10)
    ⟨"1111111111", "2222222222", 1000, "USD", some TxType.DM, none⟩ 20
    ⟨"1111111111", 5000, 500000000, 0, false, 0, 0⟩
    ⟨"2222222222", 5000000, 500000000, 0, true, 0, 0⟩
    (by decide) (by decide) (by decide) (by decide)

end FundsTransfer
